import Mathlib

/-!
Shallow embedding of the OAuth engine of `oauth-starter-python`
(`oauth_starter/models.py`, `oauth_starter/database.py`, `oauth_starter/auth.py`,
and the callback route of `oauth_starter/app.py`), together with theorems
settling the specification claims about it.

Modelling conventions:
* `datetime` values are `Nat` seconds; `datetime.utcnow()` becomes an explicit
  `now : Nat` argument (one per engine call, as all `utcnow()` calls inside a
  single source function happen at one logical instant).
  `timedelta(minutes=10) = 600`, `timedelta(seconds=3600) = 3600`,
  `timedelta(days=30) = 2592000`.
* The SQL tables become lists of rows; the unique constraints declared in
  `models.py` (`users.user_id` primary key, `users.external_id` unique,
  `users.vanity_subdomain` unique, `sessions.session_id` primary key,
  `oauth_states.state` primary key) are enforced at the storage boundary:
  an `add`+`commit` that would violate one raises `IntegrityError`, modelled
  as `Except DBError`; a failed commit rolls back and leaves the store as it was.
* Randomness (`secrets.token_bytes`, `secrets.token_urlsafe`) and network I/O
  (`httpx` token exchange and profile fetch) are passed in as explicit
  arguments / oracle values.
* `hashlib.sha256` is an ambient library primitive, passed in as an explicit
  function argument `sha256 : String → List Nat` (bytes of the digest of the
  UTF-8 encoding of the argument).
-/

/-! ## Data model (`oauth_starter/models.py`) -/

/-- Row of the `users` table (`models.py`, class `User`).  Nullable columns the
engine always writes as strings (`avatar_url`, `bio`, `oauth_token`) are kept
as `String`; columns the engine writes as possibly-`None` are `Option`. -/
structure User where
  user_id : String
  external_id : String
  provider : String
  username : String
  display_name : String
  email : Option String
  avatar_url : String
  bio : String
  expertise : List String
  vanity_subdomain : Option String
  oauth_token : String
  oauth_refresh : Option String
  oauth_expires : Nat
  created_at : Nat
  last_activity : Nat
deriving DecidableEq, Repr

/-- Row of the `sessions` table (`models.py`, class `Session`). -/
structure Session where
  session_id : String
  user_id : String
  created_at : Nat
  expires_at : Nat
deriving DecidableEq, Repr

/-- `Session.is_expired` (`models.py` line 67): `datetime.utcnow() > self.expires_at`. -/
def Session.is_expired (s : Session) (now : Nat) : Bool :=
  decide (s.expires_at < now)

/-- Row of the `oauth_states` table (`models.py`, class `OAuthState`). -/
structure OAuthState where
  state : String
  code_verifier : String
  provider : String
  created_at : Nat
  expires_at : Nat
deriving DecidableEq, Repr

/-- `OAuthState.is_expired` (`models.py` line 147): `datetime.utcnow() > self.expires_at`. -/
def OAuthState.is_expired (o : OAuthState) (now : Nat) : Bool :=
  decide (o.expires_at < now)

/-! ## Storage (`oauth_starter/database.py`) -/

/-- An `IntegrityError` raised by a `commit` that violates a declared
uniqueness constraint. -/
inductive DBError where
  | integrityError
deriving DecidableEq, Repr

/-- The three tables the engine touches. -/
structure Database where
  users : List User
  sessions : List Session
  oauth_states : List OAuthState
deriving DecidableEq, Repr

/-- The uniqueness constraints of the `users` table (`models.py`):
`user_id` primary key, `external_id` unique, `vanity_subdomain` unique
(`NULL`s don't conflict).  `username` has only an index, not `unique=True`. -/
def userConflict (u v : User) : Bool :=
  u.user_id == v.user_id || u.external_id == v.external_id ||
    (match u.vanity_subdomain, v.vanity_subdomain with
     | some a, some b => a == b
     | _, _ => false)

/-- `Database.create_user` (`database.py` lines 82-88): `add` + `commit`;
a commit violating a uniqueness constraint raises and rolls back. -/
def Database.create_user (db : Database) (u : User) : Except DBError Database :=
  if db.users.any (userConflict u) then .error .integrityError
  else .ok { db with users := db.users ++ [u] }

/-- `Database.get_user` (`database.py` lines 90-93). -/
def Database.get_user (db : Database) (user_id : String) : Option User :=
  db.users.find? (fun u => u.user_id == user_id)

/-- `Database.get_user_by_external_id` (`database.py` lines 95-98). -/
def Database.get_user_by_external_id (db : Database) (external_id : String) : Option User :=
  db.users.find? (fun u => u.external_id == external_id)

/-- `Database.update_user` (`database.py` lines 105-110): `session.merge` —
replace the row with the same primary key, insert if absent. -/
def Database.update_user (db : Database) (u : User) : Database :=
  if db.users.any (fun v => v.user_id == u.user_id) then
    { db with users := db.users.map (fun v => if v.user_id == u.user_id then u else v) }
  else
    { db with users := db.users ++ [u] }

/-- `Database.create_session` (`database.py` lines 114-120): `add` + `commit`,
primary key `session_id`. -/
def Database.create_session (db : Database) (s : Session) : Except DBError Database :=
  if db.sessions.any (fun t => t.session_id == s.session_id) then .error .integrityError
  else .ok { db with sessions := db.sessions ++ [s] }

/-- `Database.get_session` (`database.py` lines 122-125; this later definition
shadows the same-named session-factory helper above it in the class body). -/
def Database.get_session (db : Database) (session_id : String) : Option Session :=
  db.sessions.find? (fun s => s.session_id == session_id)

/-- `Database.delete_session` (`database.py` lines 127-131). -/
def Database.delete_session (db : Database) (session_id : String) : Database :=
  { db with sessions := db.sessions.filter (fun s => !(s.session_id == session_id)) }

/-- `Database.store_oauth_state` (`database.py` lines 225-237):
builds an `OAuthState` with `created_at = utcnow()` and
`expires_at = utcnow() + timedelta(minutes=10)`, then `add` + `commit`
(primary key `state`). -/
def Database.store_oauth_state (db : Database) (state code_verifier provider : String)
    (now : Nat) : Except DBError Database :=
  let oauth_state : OAuthState :=
    { state := state, code_verifier := code_verifier, provider := provider,
      created_at := now, expires_at := now + 600 }
  if db.oauth_states.any (fun o => o.state == state) then .error .integrityError
  else .ok { db with oauth_states := db.oauth_states ++ [oauth_state] }

/-- `Database.get_oauth_state` (`database.py` lines 239-250): a plain read;
returns `None` when the row is absent or `is_expired()`. -/
def Database.get_oauth_state (db : Database) (state : String) (now : Nat) :
    Option (String × String) :=
  match db.oauth_states.find? (fun o => o.state == state) with
  | none => none
  | some o => if o.is_expired now then none else some (o.code_verifier, o.provider)

/-- `Database.delete_oauth_state` (`database.py` lines 252-256). -/
def Database.delete_oauth_state (db : Database) (state : String) : Database :=
  { db with oauth_states := db.oauth_states.filter (fun o => !(o.state == state)) }

/-! ## String primitives used by `auth.py` / `app.py`

Implemented over `List Char` so that concrete runs reduce in the kernel.
All provider data relevant here is ASCII; `quote_plus`'s UTF-8 multibyte
percent-encoding of non-ASCII code points is out of scope. -/

/-- `str.lower()` (ASCII). -/
def lowerStr (s : String) : String :=
  String.mk (s.data.map Char.toLower)

/-- `needle.isPrefixList cs`: the first list starts the second. -/
def isPrefixList : List Char → List Char → Bool
  | [], _ => true
  | _ :: _, [] => false
  | a :: as, b :: bs => a == b && isPrefixList as bs

/-- Python `needle in haystack` on strings (substring containment). -/
def isInfixList (needle : List Char) : List Char → Bool
  | [] => needle.isEmpty
  | c :: cs => isPrefixList needle (c :: cs) || isInfixList needle cs

/-- Python `needle in haystack` lifted to `String`. -/
def containsSub (haystack needle : String) : Bool :=
  isInfixList needle.data haystack.data

/-- One step of `str.replace` with fuel (the needle is never empty where used). -/
def replaceFuel (needle repl : List Char) : Nat → List Char → List Char
  | 0, cs => cs
  | _ + 1, [] => []
  | n + 1, c :: cs =>
    if isPrefixList needle (c :: cs) then
      repl ++ replaceFuel needle repl n (List.drop (needle.length - 1) cs)
    else c :: replaceFuel needle repl n cs

/-- Python `s.replace(needle, repl)` (non-overlapping, left to right). -/
def replaceStr (s needle repl : String) : String :=
  String.mk (replaceFuel needle.data repl.data s.data.length s.data)

/-- Python `s.strip()` for the spaces produced by the LinkedIn name f-string. -/
def stripStr (s : String) : String :=
  String.mk (((s.data.dropWhile Char.isWhitespace).reverse.dropWhile Char.isWhitespace).reverse)

/-- Python `<` on strings: lexicographic comparison of code points. -/
def lexLt : List Char → List Char → Bool
  | [], [] => false
  | [], _ :: _ => true
  | _ :: _, [] => false
  | a :: as, b :: bs => if a.toNat == b.toNat then lexLt as bs else decide (a.toNat < b.toNat)

/-- Insert into a sorted duplicate-free list, keeping it sorted and duplicate-free. -/
def insertSortedUnique (s : String) : List String → List String
  | [] => [s]
  | t :: ts =>
    if lexLt s.data t.data then s :: t :: ts
    else if s == t then t :: ts
    else t :: insertSortedUnique s ts

/-- Python `sorted(list(set(l)))`. -/
def sortedUnique (l : List String) : List String :=
  l.foldr insertSortedUnique []

/-! ## Base64 and URL encoding primitives (`base64.urlsafe_b64encode`,
`urllib.parse.urlencode` with its default `quote_plus`) -/

/-- The URL-safe base64 alphabet. -/
def b64urlAlphabet : List Char :=
  "ABCDEFGHIJKLMNOPQRSTUVWXYZabcdefghijklmnopqrstuvwxyz0123456789-_".data

/-- Character for one 6-bit group. -/
def b64char (n : Nat) : Char :=
  (b64urlAlphabet.get? n).getD 'A'

/-- `base64.urlsafe_b64encode(bytes).decode().rstrip('=')`: since the padding
`=` of base64 output is exactly its trailing characters, the composite emits
the data characters only. -/
def b64urlNoPadChars : List Nat → List Char
  | [] => []
  | [b1] => [b64char (b1 / 4 % 64), b64char (b1 % 4 * 16)]
  | [b1, b2] =>
    [b64char (b1 / 4 % 64), b64char (b1 % 4 * 16 + b2 / 16 % 16), b64char (b2 % 16 * 4)]
  | b1 :: b2 :: b3 :: rest =>
    b64char (b1 / 4 % 64) :: b64char (b1 % 4 * 16 + b2 / 16 % 16) ::
      b64char (b2 % 16 * 4 + b3 / 64 % 4) :: b64char (b3 % 64) :: b64urlNoPadChars rest

/-- URL-safe base64 without padding, as a `String`. -/
def b64urlNoPad (bs : List Nat) : String :=
  String.mk (b64urlNoPadChars bs)

/-- The characters `quote_plus` leaves unquoted (ASCII letters, digits, `_.-~`). -/
def quotePlusSafe (c : Char) : Bool :=
  c.isAlphanum || c == '-' || c == '_' || c == '.' || c == '~'

/-- Upper-case hexadecimal digits. -/
def hexDigits : List Char := "0123456789ABCDEF".data

/-- `quote_plus` on one (ASCII) character. -/
def quotePlusChar (c : Char) : List Char :=
  if quotePlusSafe c then [c]
  else if c == ' ' then ['+']
  else ['%', hexDigits.getD (c.toNat / 16 % 16) '0', hexDigits.getD (c.toNat % 16) '0']

/-- `urllib.parse.quote_plus`. -/
def quotePlus (s : String) : String :=
  String.mk (s.data.flatMap quotePlusChar)

/-- `urllib.parse.urlencode` over an (insertion-ordered) dict. -/
def urlencode : List (String × String) → String
  | [] => ""
  | [(k, v)] => k ++ "=" ++ quotePlus v
  | (k, v) :: p :: rest => k ++ "=" ++ quotePlus v ++ "&" ++ urlencode (p :: rest)

/-! ## Provider table and OAuth engine (`oauth_starter/auth.py`) -/

/-- One entry of `SocialAuth.PROVIDERS` (`auth.py` lines 19-46). -/
structure ProviderConfig where
  auth_url : String
  token_url : String
  user_info_url : String
  scope : String
  fields : Option String := none
  repos_url : Option String := none
deriving DecidableEq, Repr

/-- `SocialAuth.PROVIDERS` (`auth.py` lines 19-46). -/
def PROVIDERS : String → Option ProviderConfig
  | "twitter" => some
    { auth_url := "https://twitter.com/i/oauth2/authorize"
      token_url := "https://api.twitter.com/2/oauth2/token"
      user_info_url := "https://api.twitter.com/2/users/me"
      scope := "tweet.read users.read follows.read"
      fields := some "id,username,name,description,public_metrics,profile_image_url" }
  | "github" => some
    { auth_url := "https://github.com/login/oauth/authorize"
      token_url := "https://github.com/login/oauth/access_token"
      user_info_url := "https://api.github.com/user"
      repos_url := some "https://api.github.com/user/repos"
      scope := "read:user user:email" }
  | "discord" => some
    { auth_url := "https://discord.com/api/oauth2/authorize"
      token_url := "https://discord.com/api/oauth2/token"
      user_info_url := "https://discord.com/api/users/@me"
      scope := "identify email guilds" }
  | "linkedin" => some
    { auth_url := "https://www.linkedin.com/oauth/v2/authorization"
      token_url := "https://www.linkedin.com/oauth/v2/accessToken"
      user_info_url := "https://api.linkedin.com/v2/me"
      scope := "r_liteprofile r_emailaddress" }
  | _ => none

/-- `SocialAuth._generate_code_verifier` (`auth.py` lines 374-376); the 32
random bytes from `secrets.token_bytes(32)` are an explicit argument. -/
def generate_code_verifier (randomBytes : List Nat) : String :=
  b64urlNoPad randomBytes

/-- `SocialAuth._generate_code_challenge` (`auth.py` lines 378-381); `sha256`
returns the digest bytes of the UTF-8 encoding of its argument. -/
def generate_code_challenge (sha256 : String → List Nat) (verifier : String) : String :=
  b64urlNoPad (sha256 verifier)

/-- `SocialAuth._generate_state` (`auth.py` lines 383-386); the
`secrets.token_urlsafe(16)` prefix is an explicit argument. -/
def generate_state (random redirect_path : String) : String :=
  random ++ ":" ++ redirect_path

/-- `SocialAuth.get_auth_url` (`auth.py` lines 81-121).  `credentials p` is the
environment-loaded `client_id` for provider `p` (`None` when the variable is
unset); raising `ValueError` becomes `Except.error`. -/
def get_auth_url (credentials : String → Option String) (sha256 : String → List Nat)
    (verifierBytes : List Nat) (stateRandom : String)
    (callback_base_url provider redirect_path : String) (now : Nat) (db : Database) :
    Except String (String × Database) :=
  match PROVIDERS provider with
  | none => .error ("Unknown provider: " ++ provider)
  | some config =>
    match credentials provider with
    | none => .error ("Missing " ++ provider ++ " CLIENT_ID in environment")
    | some client_id =>
      if client_id == "" then .error ("Missing " ++ provider ++ " CLIENT_ID in environment")
      else
        let code_verifier := generate_code_verifier verifierBytes
        let code_challenge := generate_code_challenge sha256 code_verifier
        let state := generate_state stateRandom redirect_path
        match db.store_oauth_state state code_verifier provider now with
        | .error _ => .error "IntegrityError"
        | .ok db' =>
          let params : List (String × String) :=
            [("client_id", client_id),
             ("redirect_uri", callback_base_url ++ "/auth/callback/" ++ provider),
             ("response_type", "code"),
             ("scope", config.scope),
             ("state", state),
             ("code_challenge", code_challenge),
             ("code_challenge_method", "S256")]
          .ok (config.auth_url ++ "?" ++ urlencode params, db')

/-- A repository item of the GitHub supplementary fetch (the two fields
`_extract_expertise` reads). -/
structure Repo where
  language : Option String := none
  description : Option String := none
deriving DecidableEq, Repr

/-- The provider profile JSON object, restricted to the keys the engine reads.
`none` stands for an absent key (absent and JSON-`null` are conflated). -/
structure RawProfile where
  id : Option String := none
  username : Option String := none
  name : Option String := none
  description : Option String := none
  profile_image_url : Option String := none
  login : Option String := none
  avatar_url : Option String := none
  bio : Option String := none
  email : Option String := none
  global_name : Option String := none
  avatar : Option String := none
  vanityName : Option String := none
  localizedFirstName : Option String := none
  localizedLastName : Option String := none
  repos : Option (List Repo) := none
deriving DecidableEq, Repr

/-- The provider token-endpoint response, restricted to the keys the engine
reads (`access_token` is required by `handle_callback` line 154, the other two
are read with `.get`). -/
structure TokenData where
  access_token : String
  refresh_token : Option String := none
  expires_in : Option Nat := none
deriving DecidableEq, Repr

/-- The dict returned by `SocialAuth._normalize_user_data`. -/
structure Normalized where
  id : String
  username : String
  display_name : String
  avatar_url : String
  bio : String
  email : Option String
deriving DecidableEq, Repr

/-- The distinct raise sites of the callback flow (`auth.py` lines 123-165 and
the storage layer); the boundary maps them to status codes. -/
inductive CallbackError where
  | invalidState
  | providerMismatch
  | tokenExchangeFailed
  | profileFetchFailed
  | normalizeFailed
  | integrityError
deriving DecidableEq, Repr

/-- `SocialAuth._normalize_user_data` (`auth.py` lines 281-320).  A required
`dict[key]` access on an absent key raises `KeyError` (`Except.error`);
Python's `a or b` on strings falls through when `a` is `None` or `""`. -/
def normalize_user_data (provider : String) (user_info : RawProfile) :
    Except String Normalized :=
  if provider == "twitter" then
    match user_info.id, user_info.username, user_info.name with
    | some id, some username, some name =>
      .ok { id := id, username := username, display_name := name
            avatar_url := replaceStr (user_info.profile_image_url.getD "") "_normal" "_400x400"
            bio := user_info.description.getD ""
            email := none }
    | _, _, _ => .error "KeyError"
  else if provider == "github" then
    match user_info.id, user_info.login, user_info.avatar_url with
    | some id, some login, some avatar_url =>
      .ok { id := id, username := login
            display_name := (if user_info.name.getD "" == "" then login else user_info.name.getD "")
            avatar_url := avatar_url
            bio := user_info.bio.getD ""
            email := user_info.email }
    | _, _, _ => .error "KeyError"
  else if provider == "discord" then
    match user_info.id, user_info.username, user_info.avatar with
    | some id, some username, some avatar =>
      .ok { id := id, username := username
            display_name := (if user_info.global_name.getD "" == "" then username
                             else user_info.global_name.getD "")
            avatar_url := "https://cdn.discordapp.com/avatars/" ++ id ++ "/" ++ avatar ++ ".png"
            bio := ""
            email := user_info.email }
    | _, _, _ => .error "KeyError"
  else if provider == "linkedin" then
    match user_info.id with
    | some id =>
      .ok { id := id, username := user_info.vanityName.getD id
            display_name := stripStr (user_info.localizedFirstName.getD "" ++ " " ++
                                      user_info.localizedLastName.getD "")
            avatar_url := ""
            bio := ""
            email := none }
    | none => .error "KeyError"
  else .error ("Unknown provider: " ++ provider)

/-- The keyword vocabulary of `SocialAuth._extract_expertise` (`auth.py`
lines 324-331). -/
def expertiseKeywords : List String :=
  ["javascript", "typescript", "python", "rust", "go", "java", "c++",
   "react", "vue", "angular", "node", "django", "flask", "fastapi",
   "design", "ui/ux", "figma", "marketing", "seo", "content",
   "crypto", "web3", "blockchain", "defi", "nft",
   "ai", "ml", "machine learning", "llm", "gpt",
   "devops", "docker", "kubernetes", "aws", "gcp"]

/-- `SocialAuth._extract_expertise` (`auth.py` lines 322-353): keyword scan of
the lower-cased bio, plus — for GitHub — the language and description of the
first 10 repos; collected as a set and returned sorted. -/
def extract_expertise (bio provider : String) (user_info : RawProfile) : List String :=
  let bio_lower := lowerStr bio
  let fromBio := expertiseKeywords.filter (fun k => containsSub bio_lower k)
  let fromRepos :=
    if provider == "github" then
      match user_info.repos with
      | none => []
      | some repos =>
        (repos.take 10).flatMap (fun repo =>
          (match repo.language with
           | some lang => if lang == "" then [] else [lowerStr lang]
           | none => []) ++
          (let desc := lowerStr (repo.description.getD "")
           expertiseKeywords.filter (fun k => containsSub desc k)))
    else []
  sortedUnique (fromBio ++ fromRepos)

/-- The create-or-update logic of `SocialAuth._create_or_update_user`
(`auth.py` lines 241-279) after the `get_user_by_external_id` read, as a
function of that read's result.  Factored out so the concurrent schedule of the
race analysis can run it against a stale read.  The update branch assigns
exactly `display_name`, `avatar_url`, `bio`, `expertise`, `oauth_token`,
`oauth_refresh`, `oauth_expires`, `last_activity` (lines 247-254) and calls
`update_user`; the create branch builds a fresh `User` (lines 259-275) and
calls `create_user`, whose `IntegrityError` propagates. -/
def createOrUpdateGivenRead (provider : String) (user_info : RawProfile)
    (token_data : TokenData) (normalized : Normalized) (found : Option User)
    (newUserId : String) (now : Nat) (db : Database) :
    Except CallbackError User × Database :=
  let external_id := provider ++ ":" ++ normalized.id
  match found with
  | some user =>
    let user' : User := { user with
      display_name := normalized.display_name
      avatar_url := normalized.avatar_url
      bio := normalized.bio
      expertise := extract_expertise normalized.bio provider user_info
      oauth_token := token_data.access_token
      oauth_refresh := token_data.refresh_token
      oauth_expires := now + token_data.expires_in.getD 3600
      last_activity := now }
    (.ok user', db.update_user user')
  | none =>
    let user : User := {
      user_id := newUserId
      external_id := external_id
      provider := provider
      username := normalized.username
      display_name := normalized.display_name
      email := normalized.email
      avatar_url := normalized.avatar_url
      bio := normalized.bio
      expertise := extract_expertise normalized.bio provider user_info
      vanity_subdomain := some normalized.username
      oauth_token := token_data.access_token
      oauth_refresh := token_data.refresh_token
      oauth_expires := now + token_data.expires_in.getD 3600
      created_at := now
      last_activity := now }
    match db.create_user user with
    | .error _ => (.error .integrityError, db)
    | .ok db' => (.ok user, db')

/-- `SocialAuth._create_or_update_user` (`auth.py` lines 231-279): normalize,
read the user by external id, then create or update — a separate
read-then-write against the store. -/
def create_or_update_user (provider : String) (user_info : RawProfile)
    (token_data : TokenData) (newUserId : String) (now : Nat) (db : Database) :
    Except CallbackError User × Database :=
  match normalize_user_data provider user_info with
  | .error _ => (.error .normalizeFailed, db)
  | .ok normalized =>
    createOrUpdateGivenRead provider user_info token_data normalized
      (db.get_user_by_external_id (provider ++ ":" ++ normalized.id)) newUserId now db

/-- `SocialAuth._create_session` (`auth.py` lines 355-364); the
`secrets.token_urlsafe(32)` session id is an explicit argument. -/
def create_session_for (sessionId userId : String) (now : Nat) (db : Database) :
    Except CallbackError Session × Database :=
  let session : Session :=
    { session_id := sessionId, user_id := userId,
      created_at := now, expires_at := now + 2592000 }
  match db.create_session session with
  | .error _ => (.error .integrityError, db)
  | .ok db' => (.ok session, db')

/-- `SocialAuth._get_user_info` (`auth.py` lines 195-229).  `profileResp` is
the (already JSON-shaped) main profile response — `raise_for_status` on a
failed fetch is `Except.error`; `reposResp` is the best-effort GitHub repos
fetch, `none` when its status code was not 200 (the flow continues without
repos). -/
def get_user_info (provider : String) (profileResp : Except Unit RawProfile)
    (reposResp : Option (List Repo)) : Except Unit RawProfile :=
  match profileResp with
  | .error e => .error e
  | .ok user_data =>
    if provider == "github" then
      match reposResp with
      | some repos => .ok { user_data with repos := some repos }
      | none => .ok user_data
    else .ok user_data

/-- `SocialAuth.handle_callback` (`auth.py` lines 123-165).  The network
oracles: `exchange` is the token-endpoint response of
`_exchange_code_for_token` (`Except.error` for a non-2xx/transport failure),
`profileResp`/`reposResp` feed `_get_user_info`.  The result pairs the
outcome with the store as left behind (a raise leaves all writes made so
far, a rolled-back commit leaves none). -/
def handle_callback (provider code state : String)
    (exchange : Except Unit TokenData)
    (profileResp : Except Unit RawProfile) (reposResp : Option (List Repo))
    (newUserId sessionId : String) (now : Nat) (db : Database) :
    Except CallbackError (User × Session) × Database :=
  match db.get_oauth_state state now with
  | none => (.error .invalidState, db)
  | some (_code_verifier, stored_provider) =>
    if provider != stored_provider then (.error .providerMismatch, db)
    else
      match exchange with
      | .error _ => (.error .tokenExchangeFailed, db)
      | .ok token_data =>
        match get_user_info provider profileResp reposResp with
        | .error _ => (.error .profileFetchFailed, db)
        | .ok user_info =>
          match create_or_update_user provider user_info token_data newUserId now db with
          | (.error e, db1) => (.error e, db1)
          | (.ok user, db1) =>
            match create_session_for sessionId user.user_id now db1 with
            | (.error e, db2) => (.error e, db2)
            | (.ok session, db2) =>
              (.ok (user, session), db2.delete_oauth_state state)

/-- `SocialAuth.get_user_from_session` (`auth.py` lines 366-372). -/
def get_user_from_session (session_id : String) (now : Nat) (db : Database) :
    Option User :=
  match db.get_session session_id with
  | none => none
  | some session =>
    if session.expires_at < now then none else db.get_user session.user_id

/-- The redirect-path recovery of the callback route (`app.py` line 159):
`state.split(":", 1)[1] if ":" in state else "/"`. -/
def afterFirstColon : List Char → List Char
  | [] => []
  | c :: cs => if c == ':' then cs else afterFirstColon cs

/-- `state.split(":", 1)[1] if ":" in state else "/"` (`app.py` line 159). -/
def recoverRedirect (state : String) : String :=
  if state.data.any (fun c => c == ':') then String.mk (afterFirstColon state.data)
  else "/"

/-- The §5 race schedule on `_create_or_update_user`: two first-time callbacks
for the same external id run concurrently; both perform their
`get_user_by_external_id` read (against `db0`) before either write lands.
Each half is exactly `_create_or_update_user` with its read made explicit;
the writes land in schedule order.  Returns both outcomes and the final store. -/
def interleavedFirstLogins (provider : String) (infoA infoB : RawProfile)
    (tokenA tokenB : TokenData) (normA normB : Normalized)
    (uidA uidB : String) (now : Nat) (db0 : Database) :
    (Except CallbackError User × Except CallbackError User) × Database :=
  let readA := db0.get_user_by_external_id (provider ++ ":" ++ normA.id)
  let readB := db0.get_user_by_external_id (provider ++ ":" ++ normB.id)
  let (resA, db1) := createOrUpdateGivenRead provider infoA tokenA normA readA uidA now db0
  let (resB, db2) := createOrUpdateGivenRead provider infoB tokenB normB readB uidB now db1
  ((resA, resB), db2)

theorem afterFirstColon_append (l r : List Char) (h : (':' : Char) ∉ l) :
    afterFirstColon (l ++ ':' :: r) = r := by
  induction l with
  | nil => simp [afterFirstColon]
  | cons c cs ih =>
    have hc : (c == ':') = false := by
      simp only [beq_eq_false_iff_ne]
      intro hce
      exact h (hce ▸ List.mem_cons_self c cs)
    simp only [List.cons_append, afterFirstColon, hc, if_false]
    exact ih (fun hm => h (List.mem_cons_of_mem _ hm))

/-- C5: splitting the state on the first colon recovers the redirect path. -/
theorem state_roundtrip (random redirect_path : String)
    (h : (':' : Char) ∉ random.data) :
    recoverRedirect (generate_state random redirect_path) = redirect_path := by
  have hdata : (generate_state random redirect_path).data
      = random.data ++ ':' :: redirect_path.data := by
    simp [generate_state, String.data_append]
  have hmem : (':' : Char) ∈ (generate_state random redirect_path).data := by
    rw [hdata]; exact List.mem_append_right _ (List.mem_cons_self _ _)
  have hany : ((generate_state random redirect_path).data.any fun c => c == ':') = true := by
    rw [List.any_eq_true]
    exact ⟨':', hmem, by simp⟩
  unfold recoverRedirect
  rw [if_pos hany, hdata, afterFirstColon_append _ _ h]

theorem state_roundtrip_witness :
    (':' : Char) ∉ "abc".data ∧
      recoverRedirect (generate_state "abc" "/dashboard") = "/dashboard" :=
  ⟨by decide, state_roundtrip "abc" "/dashboard" (by decide)⟩

/-- C8: a stored state whose 10-minute TTL has elapsed is NotFound even though
its row is still present. -/
theorem expired_state_not_found (db : Database) (state verifier provider : String)
    (t_store now : Nat)
    (hfresh : db.oauth_states.any (fun o => o.state == state) = false)
    (hlate : t_store + 600 < now) :
    ∃ db', db.store_oauth_state state verifier provider t_store = .ok db' ∧
      (∃ o ∈ db'.oauth_states,
        o.state = state ∧ o.created_at = t_store ∧ o.expires_at = t_store + 600) ∧
      db'.get_oauth_state state now = none := by
  refine ⟨{ db with oauth_states := db.oauth_states ++
      [{ state := state, code_verifier := verifier, provider := provider,
         created_at := t_store, expires_at := t_store + 600 }] }, ?_, ?_, ?_⟩
  · unfold Database.store_oauth_state
    rw [hfresh]
    rfl
  · exact ⟨_, List.mem_append_right _ (List.mem_cons_self _ _), rfl, rfl, rfl⟩
  · unfold Database.get_oauth_state
    rw [List.find?_append]
    have hnone : db.oauth_states.find? (fun o => o.state == state) = none := by
      rw [List.find?_eq_none]
      intro o ho hp
      have : db.oauth_states.any (fun o => o.state == state) = true :=
        List.any_eq_true.mpr ⟨o, ho, hp⟩
      rw [hfresh] at this
      exact Bool.false_ne_true this
    rw [hnone]
    simp only [Option.none_or, List.find?_cons, List.find?_nil, beq_self_eq_true]
    simp [OAuthState.is_expired, hlate]

theorem expired_state_not_found_witness :
    ∃ db', (Database.mk [] [] []).store_oauth_state "st" "v" "github" 0 = .ok db' ∧
      (∃ o ∈ db'.oauth_states, o.state = "st" ∧ o.created_at = 0 ∧ o.expires_at = 600) ∧
      db'.get_oauth_state "st" 660 = none :=
  expired_state_not_found (Database.mk [] [] []) "st" "v" "github" 0 660
    (by decide) (by decide)

/-- C3 counterexample: at the exact boundary expires-at = now the session is
still resolved to its user, not treated as absent. -/
theorem session_boundary_counterexample :
    get_user_from_session "s1" 100
      (Database.mk
        [{ user_id := "u1", external_id := "github:1", provider := "github",
           username := "t", display_name := "T", email := none, avatar_url := "",
           bio := "", expertise := [], vanity_subdomain := some "t",
           oauth_token := "tok", oauth_refresh := none, oauth_expires := 0,
           created_at := 0, last_activity := 0 }]
        [{ session_id := "s1", user_id := "u1", created_at := 0, expires_at := 100 }]
        [])
      ≠ none := by decide

/-- C3 (amended): resolve treats a session as absent when it is unknown or when
expires-at is strictly less than now; at expires-at = now (and later than now)
it still resolves the session's user. -/
theorem session_resolution_strict_expiry (sid : String) (now : Nat) (db : Database) :
    (db.get_session sid = none → get_user_from_session sid now db = none)
  ∧ (∀ s, db.get_session sid = some s → s.expires_at < now →
      get_user_from_session sid now db = none)
  ∧ (∀ s, db.get_session sid = some s → now ≤ s.expires_at →
      get_user_from_session sid now db = db.get_user s.user_id) := by
  refine ⟨?_, ?_, ?_⟩
  · intro h
    unfold get_user_from_session
    rw [h]
  · intro s h hlt
    simp [get_user_from_session, h, hlt]
  · intro s h hle
    simp [get_user_from_session, h, Nat.not_lt.mpr hle]

theorem session_resolution_strict_expiry_witness :
    get_user_from_session "s1" 40
        (Database.mk [] [{ session_id := "s1", user_id := "u1", created_at := 0, expires_at := 30 }] [])
      = none :=
  (session_resolution_strict_expiry "s1" 40 _).2.1
    { session_id := "s1", user_id := "u1", created_at := 0, expires_at := 30 }
    (by decide) (by decide)

/-- C7: a found, unexpired state recorded for a different provider makes the
callback fail with provider-mismatch, independently of the token-exchange and
profile oracles, leaving the store untouched. -/
theorem provider_mismatch_rejected (provider code state : String)
    (exchange : Except Unit TokenData) (profileResp : Except Unit RawProfile)
    (reposResp : Option (List Repo)) (newUserId sessionId : String) (now : Nat)
    (db : Database) (verifier stored_provider : String)
    (hstate : db.get_oauth_state state now = some (verifier, stored_provider))
    (hmm : provider ≠ stored_provider) :
    handle_callback provider code state exchange profileResp reposResp
        newUserId sessionId now db
      = (.error .providerMismatch, db) := by
  unfold handle_callback
  rw [hstate]
  simp [bne_iff_ne, hmm]

theorem provider_mismatch_rejected_witness :
    handle_callback "twitter" "c" "st" (.ok { access_token := "t" }) (.error ()) none
        "u" "s" 0
        (Database.mk [] [] [{ state := "st", code_verifier := "v", provider := "github",
                              created_at := 0, expires_at := 600 }])
      = (.error .providerMismatch,
         Database.mk [] [] [{ state := "st", code_verifier := "v", provider := "github",
                              created_at := 0, expires_at := 600 }]) :=
  provider_mismatch_rejected "twitter" "c" "st" (.ok { access_token := "t" }) (.error ())
    none "u" "s" 0 _ "v" "github" (by decide) (by decide)

theorem get_oauth_state_delete (db : Database) (state : String) (now : Nat) :
    (db.delete_oauth_state state).get_oauth_state state now = none := by
  unfold Database.delete_oauth_state Database.get_oauth_state
  have : List.find? (fun o => o.state == state)
      (db.oauth_states.filter (fun o => !(o.state == state))) = none := by
    rw [List.find?_eq_none]
    intro o ho hp
    have := List.of_mem_filter ho
    rw [hp] at this
    exact Bool.false_ne_true this
  simp only [this]

theorem create_or_update_user_ok_inv {provider : String} {info : RawProfile}
    {td : TokenData} {uid : String} {now : Nat} {db : Database} {u : User}
    {db1 : Database}
    (hok : create_or_update_user provider info td uid now db = (.ok u, db1)) :
    ∃ normalized, normalize_user_data provider info = .ok normalized ∧
      createOrUpdateGivenRead provider info td normalized
        (db.get_user_by_external_id (provider ++ ":" ++ normalized.id)) uid now db
        = (.ok u, db1) := by
  unfold create_or_update_user at hok
  split at hok
  · simp at hok
  · next normalized heq => exact ⟨normalized, heq, hok⟩

theorem givenRead_some_fields {provider : String} {info : RawProfile}
    {td : TokenData} {n : Normalized} {user : User} {uid : String} {now : Nat}
    {db : Database} {u : User} {db1 : Database}
    (hok : createOrUpdateGivenRead provider info td n (some user) uid now db
      = (.ok u, db1)) :
    u.user_id = user.user_id ∧ u.external_id = user.external_id ∧
    u.username = user.username ∧ u.vanity_subdomain = user.vanity_subdomain ∧
    u.email = user.email ∧ u.provider = user.provider ∧
    u.created_at = user.created_at ∧
    u.display_name = n.display_name ∧ u.avatar_url = n.avatar_url ∧
    u.bio = n.bio ∧ u.expertise = extract_expertise n.bio provider info ∧
    u.oauth_token = td.access_token ∧ u.oauth_refresh = td.refresh_token ∧
    u.oauth_expires = now + td.expires_in.getD 3600 ∧ u.last_activity = now ∧
    db1 = db.update_user u := by
  unfold createOrUpdateGivenRead at hok
  simp only [Prod.mk.injEq, Except.ok.injEq] at hok
  obtain ⟨hu, hdb⟩ := hok
  subst hu
  subst hdb
  exact ⟨rfl, rfl, rfl, rfl, rfl, rfl, rfl, rfl, rfl, rfl, rfl, rfl, rfl, rfl, rfl, rfl⟩

theorem givenRead_none_fields {provider : String} {info : RawProfile}
    {td : TokenData} {n : Normalized} {uid : String} {now : Nat}
    {db : Database} {u : User} {db1 : Database}
    (hok : createOrUpdateGivenRead provider info td n none uid now db
      = (.ok u, db1)) :
    u.user_id = uid ∧ u.external_id = provider ++ ":" ++ n.id ∧
    u.username = n.username ∧ u.vanity_subdomain = some n.username ∧
    u.provider = provider ∧ u.email = n.email ∧
    u.display_name = n.display_name ∧ u.avatar_url = n.avatar_url ∧
    u.bio = n.bio ∧ u.oauth_token = td.access_token ∧
    u.oauth_refresh = td.refresh_token ∧
    u.oauth_expires = now + td.expires_in.getD 3600 ∧
    u.created_at = now ∧ u.last_activity = now ∧
    db1.users = db.users ++ [u] ∧ db1.sessions = db.sessions ∧
    db1.oauth_states = db.oauth_states := by
  unfold createOrUpdateGivenRead at hok
  simp only [] at hok
  split at hok
  · simp at hok
  · next db' hcreate =>
    simp only [Prod.mk.injEq, Except.ok.injEq] at hok
    obtain ⟨hu, hdb⟩ := hok
    subst hu
    subst hdb
    unfold Database.create_user at hcreate
    split at hcreate
    · simp at hcreate
    · simp only [Except.ok.injEq] at hcreate
      subst hcreate
      exact ⟨rfl, rfl, rfl, rfl, rfl, rfl, rfl, rfl, rfl, rfl, rfl, rfl, rfl, rfl,
        rfl, rfl, rfl⟩

theorem create_session_for_ok_inv {sessionId userId : String} {now : Nat}
    {db : Database} {s : Session} {db2 : Database}
    (hok : create_session_for sessionId userId now db = (.ok s, db2)) :
    s.session_id = sessionId ∧ s.user_id = userId ∧ s.created_at = now ∧
    s.expires_at = now + 2592000 ∧
    db2.users = db.users ∧ db2.oauth_states = db.oauth_states ∧
    db2.sessions = db.sessions ++ [s] := by
  unfold create_session_for at hok
  simp only [] at hok
  split at hok
  · simp at hok
  · next db' hcreate =>
    simp only [Prod.mk.injEq, Except.ok.injEq] at hok
    obtain ⟨hs, hdb⟩ := hok
    subst hs
    subst hdb
    unfold Database.create_session at hcreate
    split at hcreate
    · simp at hcreate
    · simp only [Except.ok.injEq] at hcreate
      subst hcreate
      exact ⟨rfl, rfl, rfl, rfl, rfl, rfl, rfl⟩

theorem handle_callback_ok_inv {provider code state : String}
    {exchange : Except Unit TokenData}
    {profileResp : Except Unit RawProfile} {reposResp : Option (List Repo)}
    {newUserId sessionId : String} {now : Nat} {db : Database}
    {u : User} {s : Session} {db' : Database}
    (hok : handle_callback provider code state exchange profileResp reposResp
        newUserId sessionId now db = (.ok (u, s), db')) :
    ∃ verifier sp token_data user_info db1 db2,
      db.get_oauth_state state now = some (verifier, sp) ∧
      provider = sp ∧
      exchange = .ok token_data ∧
      get_user_info provider profileResp reposResp = .ok user_info ∧
      create_or_update_user provider user_info token_data newUserId now db
        = (.ok u, db1) ∧
      create_session_for sessionId u.user_id now db1 = (.ok s, db2) ∧
      db' = db2.delete_oauth_state state := by
  unfold handle_callback at hok
  split at hok
  · simp at hok
  · next verifier sp hstate =>
    split at hok
    · simp at hok
    · next hbne =>
      have hsp : provider = sp := by
        by_contra hne
        exact hbne (bne_iff_ne.mpr hne)
      split at hok
      · simp at hok
      · next token_data =>
        split at hok
        · simp at hok
        · next user_info hinfo =>
          split at hok
          · simp at hok
          · next user db1 hcu =>
            split at hok
            · simp at hok
            · next session db2 hcs =>
              simp only [Prod.mk.injEq, Except.ok.injEq] at hok
              obtain ⟨⟨hu, hs⟩, hdb⟩ := hok
              subst hu
              subst hs
              exact ⟨verifier, sp, token_data, user_info, db1, db2,
                hstate, hsp, rfl, hinfo, hcu, hcs, hdb.symm⟩

/-- C10: a token response without expires_in defaults the stored expiry to
now + 3600 (create and update path alike, as the database is arbitrary). -/
theorem default_token_expiry (provider code state : String) (token_data : TokenData)
    (profileResp : Except Unit RawProfile) (reposResp : Option (List Repo))
    (newUserId sessionId : String) (now : Nat) (db : Database)
    (u : User) (s : Session) (db' : Database)
    (hnoexp : token_data.expires_in = none)
    (hok : handle_callback provider code state (.ok token_data) profileResp reposResp
        newUserId sessionId now db = (.ok (u, s), db')) :
    u.oauth_expires = now + 3600 := by
  obtain ⟨v, sp, td, info, db1, db2, -, -, hexch, -, hcu, -, -⟩ :=
    handle_callback_ok_inv hok
  obtain rfl : td = token_data := by
    injection hexch with h
    exact h.symm
  obtain ⟨n, hn, hgiven⟩ := create_or_update_user_ok_inv hcu
  rcases hread : db.get_user_by_external_id (provider ++ ":" ++ n.id) with _ | user
  · rw [hread] at hgiven
    obtain ⟨-, -, -, -, -, -, -, -, -, -, -, hexp, -, -, -, -, -⟩ :=
      givenRead_none_fields hgiven
    rw [hexp, hnoexp]
    rfl
  · rw [hread] at hgiven
    obtain ⟨-, -, -, -, -, -, -, -, -, -, -, -, -, hexp, -, -⟩ :=
      givenRead_some_fields hgiven
    rw [hexp, hnoexp]
    rfl

theorem default_token_expiry_witness :
    ({ access_token := "t" } : TokenData).expires_in = none ∧
    ({ user_id := "u1", external_id := "github:1", provider := "github",
       username := "l", display_name := "l", email := none, avatar_url := "a",
       bio := "", expertise := [], vanity_subdomain := some "l",
       oauth_token := "t", oauth_refresh := none, oauth_expires := 3607,
       created_at := 7, last_activity := 7 } : User).oauth_expires = 7 + 3600 :=
  ⟨rfl,
   default_token_expiry "github" "c" "st" { access_token := "t" }
    (.ok { id := some "1", login := some "l", avatar_url := some "a" }) none
    "u1" "s1" 7
    (Database.mk [] [] [{ state := "st", code_verifier := "v", provider := "github",
                          created_at := 0, expires_at := 600 }])
    { user_id := "u1", external_id := "github:1", provider := "github",
      username := "l", display_name := "l", email := none, avatar_url := "a",
      bio := "", expertise := [], vanity_subdomain := some "l",
      oauth_token := "t", oauth_refresh := none, oauth_expires := 3607,
      created_at := 7, last_activity := 7 }
    { session_id := "s1", user_id := "u1", created_at := 7, expires_at := 2592007 }
    (Database.mk
      [{ user_id := "u1", external_id := "github:1", provider := "github",
         username := "l", display_name := "l", email := none, avatar_url := "a",
         bio := "", expertise := [], vanity_subdomain := some "l",
         oauth_token := "t", oauth_refresh := none, oauth_expires := 3607,
         created_at := 7, last_activity := 7 }]
      [{ session_id := "s1", user_id := "u1", created_at := 7, expires_at := 2592007 }]
      [])
    rfl rfl⟩

/-- C1 counterexample: a callback whose state lookup succeeded but which then
failed at token exchange does not consume the state: the store is unchanged, a
second lookup of the same token still succeeds, and a second callback attempt
with the same state token succeeds rather than failing with invalid-state. -/
theorem state_lookup_not_consumed_counterexample :
    (handle_callback "github" "c" "st" (.error ()) (.error ()) none "u1" "s1" 0
        (Database.mk [] [] [{ state := "st", code_verifier := "v", provider := "github",
                              created_at := 0, expires_at := 600 }])
      = (.error .tokenExchangeFailed,
         Database.mk [] [] [{ state := "st", code_verifier := "v", provider := "github",
                              created_at := 0, expires_at := 600 }]))
  ∧ (Database.mk [] [] [{ state := "st", code_verifier := "v", provider := "github",
                          created_at := 0, expires_at := 600 }]).get_oauth_state "st" 0
      = some ("v", "github")
  ∧ (handle_callback "github" "c" "st" (.ok { access_token := "t" })
        (.ok { id := some "1", login := some "l", avatar_url := some "a" }) none
        "u1" "s1" 0
        (Database.mk [] [] [{ state := "st", code_verifier := "v", provider := "github",
                              created_at := 0, expires_at := 600 }])).1.isOk = true :=
  ⟨rfl, rfl, by decide⟩

/-- C1 (amended): a state token is consumed by a successful callback: after a
callback flow completes successfully, any lookup of its state token returns
NotFound and any second callback attempt presenting the same state token fails
with invalid-state, so two sequential callback attempts with the same token
succeed at most once. -/
theorem state_single_use_after_success (provider code state : String)
    (exchange : Except Unit TokenData) (profileResp : Except Unit RawProfile)
    (reposResp : Option (List Repo)) (newUserId sessionId : String) (now : Nat)
    (db : Database) (u : User) (s : Session) (db' : Database)
    (hok : handle_callback provider code state exchange profileResp reposResp
        newUserId sessionId now db = (.ok (u, s), db')) :
    (∀ t, db'.get_oauth_state state t = none) ∧
    (∀ provider2 code2 exchange2 profileResp2 reposResp2 newUserId2 sessionId2 now2,
      handle_callback provider2 code2 state exchange2 profileResp2 reposResp2
          newUserId2 sessionId2 now2 db'
        = (.error .invalidState, db')) := by
  obtain ⟨v, sp, td, info, db1, db2, -, -, -, -, -, -, hdel⟩ :=
    handle_callback_ok_inv hok
  subst hdel
  constructor
  · intro t
    exact get_oauth_state_delete db2 state t
  · intro provider2 code2 exchange2 profileResp2 reposResp2 newUserId2 sessionId2 now2
    unfold handle_callback
    rw [get_oauth_state_delete]

theorem state_single_use_after_success_witness :
    (∀ t, (Database.mk
        [{ user_id := "u1", external_id := "github:1", provider := "github",
           username := "l", display_name := "l", email := none, avatar_url := "a",
           bio := "", expertise := [], vanity_subdomain := some "l",
           oauth_token := "t", oauth_refresh := none, oauth_expires := 3607,
           created_at := 7, last_activity := 7 }]
        [{ session_id := "s1", user_id := "u1", created_at := 7, expires_at := 2592007 }]
        []).get_oauth_state "st" t = none) ∧
    (∀ provider2 code2 exchange2 profileResp2 reposResp2 newUserId2 sessionId2 now2,
      handle_callback provider2 code2 "st" exchange2 profileResp2 reposResp2
          newUserId2 sessionId2 now2
          (Database.mk
            [{ user_id := "u1", external_id := "github:1", provider := "github",
               username := "l", display_name := "l", email := none, avatar_url := "a",
               bio := "", expertise := [], vanity_subdomain := some "l",
               oauth_token := "t", oauth_refresh := none, oauth_expires := 3607,
               created_at := 7, last_activity := 7 }]
            [{ session_id := "s1", user_id := "u1", created_at := 7, expires_at := 2592007 }]
            [])
        = (.error .invalidState,
           Database.mk
            [{ user_id := "u1", external_id := "github:1", provider := "github",
               username := "l", display_name := "l", email := none, avatar_url := "a",
               bio := "", expertise := [], vanity_subdomain := some "l",
               oauth_token := "t", oauth_refresh := none, oauth_expires := 3607,
               created_at := 7, last_activity := 7 }]
            [{ session_id := "s1", user_id := "u1", created_at := 7, expires_at := 2592007 }]
            [])) :=
  state_single_use_after_success "github" "c" "st" (.ok { access_token := "t" })
    (.ok { id := some "1", login := some "l", avatar_url := some "a" }) none
    "u1" "s1" 7
    (Database.mk [] [] [{ state := "st", code_verifier := "v", provider := "github",
                          created_at := 0, expires_at := 600 }])
    { user_id := "u1", external_id := "github:1", provider := "github",
      username := "l", display_name := "l", email := none, avatar_url := "a",
      bio := "", expertise := [], vanity_subdomain := some "l",
      oauth_token := "t", oauth_refresh := none, oauth_expires := 3607,
      created_at := 7, last_activity := 7 }
    { session_id := "s1", user_id := "u1", created_at := 7, expires_at := 2592007 }
    (Database.mk
      [{ user_id := "u1", external_id := "github:1", provider := "github",
         username := "l", display_name := "l", email := none, avatar_url := "a",
         bio := "", expertise := [], vanity_subdomain := some "l",
         oauth_token := "t", oauth_refresh := none, oauth_expires := 3607,
         created_at := 7, last_activity := 7 }]
      [{ session_id := "s1", user_id := "u1", created_at := 7, expires_at := 2592007 }]
      [])
    rfl

theorem create_or_update_user_error_inv {provider : String} {info : RawProfile}
    {td : TokenData} {uid : String} {now : Nat} {db : Database}
    {e : CallbackError} {db1 : Database}
    (herr : create_or_update_user provider info td uid now db = (.error e, db1)) :
    db1 = db ∧ (e = .normalizeFailed ∨ e = .integrityError) := by
  unfold create_or_update_user at herr
  split at herr
  · simp only [Prod.mk.injEq, Except.error.injEq] at herr
    exact ⟨herr.2.symm, .inl herr.1.symm⟩
  · unfold createOrUpdateGivenRead at herr
    simp only [] at herr
    split at herr
    · simp at herr
    · split at herr
      · simp only [Prod.mk.injEq, Except.error.injEq] at herr
        exact ⟨herr.2.symm, .inr herr.1.symm⟩
      · simp at herr

theorem create_session_for_error_inv {sessionId userId : String} {now : Nat}
    {db : Database} {e : CallbackError} {db2 : Database}
    (herr : create_session_for sessionId userId now db = (.error e, db2)) :
    db2 = db ∧ e = .integrityError := by
  unfold create_session_for at herr
  simp only [] at herr
  split at herr
  · simp only [Prod.mk.injEq, Except.error.injEq] at herr
    exact ⟨herr.2.symm, herr.1.symm⟩
  · simp at herr

/-- C9: a callback failing with invalid-state, provider-mismatch,
token-exchange or profile-fetch failure leaves the user and session stores
exactly as they were. -/
theorem failed_callback_stores_unchanged (provider code state : String)
    (exchange : Except Unit TokenData) (profileResp : Except Unit RawProfile)
    (reposResp : Option (List Repo)) (newUserId sessionId : String) (now : Nat)
    (db dbx : Database) (e : CallbackError)
    (herr : handle_callback provider code state exchange profileResp reposResp
        newUserId sessionId now db = (.error e, dbx))
    (hkind : e = .invalidState ∨ e = .providerMismatch ∨
             e = .tokenExchangeFailed ∨ e = .profileFetchFailed) :
    dbx.users = db.users ∧ dbx.sessions = db.sessions := by
  unfold handle_callback at herr
  split at herr
  · simp only [Prod.mk.injEq, Except.error.injEq] at herr
    rw [← herr.2]
    exact ⟨rfl, rfl⟩
  · split at herr
    · simp only [Prod.mk.injEq, Except.error.injEq] at herr
      rw [← herr.2]
      exact ⟨rfl, rfl⟩
    · split at herr
      · simp only [Prod.mk.injEq, Except.error.injEq] at herr
        rw [← herr.2]
        exact ⟨rfl, rfl⟩
      · split at herr
        · simp only [Prod.mk.injEq, Except.error.injEq] at herr
          rw [← herr.2]
          exact ⟨rfl, rfl⟩
        · split at herr
          · next e' db1 hcu =>
            simp only [Prod.mk.injEq, Except.error.injEq] at herr
            obtain ⟨he, hdb⟩ := herr
            obtain ⟨hdb1, hkind'⟩ := create_or_update_user_error_inv hcu
            subst he
            subst hdb
            rcases hkind with h | h | h | h <;> rcases hkind' with h' | h' <;>
              simp [h'] at h
          · split at herr
            · next e' db2 hcs =>
              simp only [Prod.mk.injEq, Except.error.injEq] at herr
              obtain ⟨he, hdb⟩ := herr
              obtain ⟨hdb2, hkind'⟩ := create_session_for_error_inv hcs
              subst he
              subst hdb
              rcases hkind with h | h | h | h <;> simp [hkind'] at h
            · simp at herr

theorem failed_callback_stores_unchanged_witness :
    (Database.mk
      [{ user_id := "u1", external_id := "github:1", provider := "github",
         username := "l", display_name := "l", email := none, avatar_url := "a",
         bio := "", expertise := [], vanity_subdomain := some "l",
         oauth_token := "t", oauth_refresh := none, oauth_expires := 3607,
         created_at := 7, last_activity := 7 }]
      [{ session_id := "s1", user_id := "u1", created_at := 7, expires_at := 2592007 }]
      []).users
      = (Database.mk
      [{ user_id := "u1", external_id := "github:1", provider := "github",
         username := "l", display_name := "l", email := none, avatar_url := "a",
         bio := "", expertise := [], vanity_subdomain := some "l",
         oauth_token := "t", oauth_refresh := none, oauth_expires := 3607,
         created_at := 7, last_activity := 7 }]
      [{ session_id := "s1", user_id := "u1", created_at := 7, expires_at := 2592007 }]
      []).users
    ∧ (Database.mk
      [{ user_id := "u1", external_id := "github:1", provider := "github",
         username := "l", display_name := "l", email := none, avatar_url := "a",
         bio := "", expertise := [], vanity_subdomain := some "l",
         oauth_token := "t", oauth_refresh := none, oauth_expires := 3607,
         created_at := 7, last_activity := 7 }]
      [{ session_id := "s1", user_id := "u1", created_at := 7, expires_at := 2592007 }]
      []).sessions
      = (Database.mk
      [{ user_id := "u1", external_id := "github:1", provider := "github",
         username := "l", display_name := "l", email := none, avatar_url := "a",
         bio := "", expertise := [], vanity_subdomain := some "l",
         oauth_token := "t", oauth_refresh := none, oauth_expires := 3607,
         created_at := 7, last_activity := 7 }]
      [{ session_id := "s1", user_id := "u1", created_at := 7, expires_at := 2592007 }]
      []).sessions :=
  failed_callback_stores_unchanged "github" "c" "nope" (.ok { access_token := "t" })
    (.error ()) none "u2" "s2" 8
    (Database.mk
      [{ user_id := "u1", external_id := "github:1", provider := "github",
         username := "l", display_name := "l", email := none, avatar_url := "a",
         bio := "", expertise := [], vanity_subdomain := some "l",
         oauth_token := "t", oauth_refresh := none, oauth_expires := 3607,
         created_at := 7, last_activity := 7 }]
      [{ session_id := "s1", user_id := "u1", created_at := 7, expires_at := 2592007 }]
      [])
    (Database.mk
      [{ user_id := "u1", external_id := "github:1", provider := "github",
         username := "l", display_name := "l", email := none, avatar_url := "a",
         bio := "", expertise := [], vanity_subdomain := some "l",
         oauth_token := "t", oauth_refresh := none, oauth_expires := 3607,
         created_at := 7, last_activity := 7 }]
      [{ session_id := "s1", user_id := "u1", created_at := 7, expires_at := 2592007 }]
      [])
    .invalidState rfl (.inl rfl)

/-- C6: a second successful callback carrying the same external id takes the
update path: it overwrites exactly the mutable fields from the new profile and
token data and preserves user id, external id, username, vanity subdomain,
email and created-at — in particular both callbacks yield the same user id. -/
theorem upsert_preserves_identity (provider code1 code2 state1 state2 : String)
    (td1 td2 : TokenData) (profileResp1 profileResp2 : Except Unit RawProfile)
    (reposResp1 reposResp2 : Option (List Repo))
    (uid1 sid1 uid2 sid2 : String) (now1 now2 : Nat)
    (db0 db1 db2 : Database) (u1 u2 : User) (s1 s2 : Session)
    (info1 info2 : RawProfile) (n1 n2 : Normalized)
    (hinfo1 : get_user_info provider profileResp1 reposResp1 = .ok info1)
    (hn1 : normalize_user_data provider info1 = .ok n1)
    (hinfo2 : get_user_info provider profileResp2 reposResp2 = .ok info2)
    (hn2 : normalize_user_data provider info2 = .ok n2)
    (hid : n2.id = n1.id)
    (hfresh : db0.get_user_by_external_id (provider ++ ":" ++ n1.id) = none)
    (hrun1 : handle_callback provider code1 state1 (.ok td1) profileResp1 reposResp1
        uid1 sid1 now1 db0 = (.ok (u1, s1), db1))
    (hrun2 : handle_callback provider code2 state2 (.ok td2) profileResp2 reposResp2
        uid2 sid2 now2 db1 = (.ok (u2, s2), db2)) :
    u2.user_id = u1.user_id ∧ u2.external_id = u1.external_id ∧
    u2.username = u1.username ∧ u2.vanity_subdomain = u1.vanity_subdomain ∧
    u2.email = u1.email ∧ u2.created_at = u1.created_at ∧
    u2.display_name = n2.display_name ∧ u2.avatar_url = n2.avatar_url ∧
    u2.bio = n2.bio ∧ u2.expertise = extract_expertise n2.bio provider info2 ∧
    u2.oauth_token = td2.access_token ∧ u2.oauth_refresh = td2.refresh_token ∧
    u2.oauth_expires = now2 + td2.expires_in.getD 3600 ∧
    u2.last_activity = now2 := by
  obtain ⟨v1, sp1, tda, infoa, dbA, dbB, -, -, hexch1, hinfo1', hcu1, hcs1, hdel1⟩ :=
    handle_callback_ok_inv hrun1
  obtain rfl : td1 = tda := Except.ok.inj hexch1
  rw [hinfo1] at hinfo1'
  obtain rfl : info1 = infoa := Except.ok.inj hinfo1'
  obtain ⟨na, hna, hgiven1⟩ := create_or_update_user_ok_inv hcu1
  rw [hn1] at hna
  obtain rfl : n1 = na := Except.ok.inj hna
  rw [hfresh] at hgiven1
  obtain ⟨-, hext1, -, -, -, -, -, -, -, -, -, -, -, -, husers1, -, -⟩ :=
    givenRead_none_fields hgiven1
  obtain ⟨-, -, -, -, husersB, -, -⟩ := create_session_for_ok_inv hcs1
  have hdb1users : db1.users = db0.users ++ [u1] := by
    rw [hdel1]
    have hproj : (dbB.delete_oauth_state state1).users = dbB.users := rfl
    rw [hproj, husersB, husers1]
  obtain ⟨v2, sp2, tdb, infob, dbC, dbD, -, -, hexch2, hinfo2', hcu2, hcs2, -⟩ :=
    handle_callback_ok_inv hrun2
  obtain rfl : td2 = tdb := Except.ok.inj hexch2
  rw [hinfo2] at hinfo2'
  obtain rfl : info2 = infob := Except.ok.inj hinfo2'
  obtain ⟨nb, hnb, hgiven2⟩ := create_or_update_user_ok_inv hcu2
  rw [hn2] at hnb
  obtain rfl : n2 = nb := Except.ok.inj hnb
  have hread2 : db1.get_user_by_external_id (provider ++ ":" ++ n2.id) = some u1 := by
    unfold Database.get_user_by_external_id
    rw [hdb1users, List.find?_append]
    have h0 : db0.users.find? (fun u => u.external_id == provider ++ ":" ++ n2.id)
        = none := by
      rw [hid]
      unfold Database.get_user_by_external_id at hfresh
      exact hfresh
    rw [h0]
    have hbeq : (u1.external_id == provider ++ ":" ++ n2.id) = true := by
      rw [hid, hext1]
      exact beq_self_eq_true _
    simp [List.find?_cons, hbeq]
  rw [hread2] at hgiven2
  obtain ⟨g1, g2, g3, g4, g5, -, g7, g8, g9, g10, g11, g12, g13, g14, g15, -⟩ :=
    givenRead_some_fields hgiven2
  exact ⟨g1, g2, g3, g4, g5, g7, g8, g9, g10, g11, g12, g13, g14, g15⟩

/-- Fixture for concrete double-callback runs: initial store with two pending
states for github. -/
def sampleDb0 : Database := Database.mk [] []
  [{ state := "st1", code_verifier := "v1", provider := "github",
     created_at := 0, expires_at := 600 },
   { state := "st2", code_verifier := "v2", provider := "github",
     created_at := 0, expires_at := 600 }]

/-- Fixture: first-login github profile. -/
def sampleProfile1 : RawProfile :=
  { id := some "1", login := some "l", avatar_url := some "a", bio := some "python fan" }

/-- Fixture: second-login github profile with the same id and new mutable data. -/
def sampleProfile2 : RawProfile :=
  { id := some "1", login := some "l2", avatar_url := some "a2", name := some "New",
    bio := some "rust fan" }

/-- Fixture: the user created by the first sample run. -/
def sampleUser1 : User :=
  { user_id := "u1", external_id := "github:1", provider := "github",
    username := "l", display_name := "l", email := none, avatar_url := "a",
    bio := "python fan", expertise := ["python"], vanity_subdomain := some "l",
    oauth_token := "t1", oauth_refresh := none, oauth_expires := 3607,
    created_at := 7, last_activity := 7 }

/-- Fixture: the user after the second sample run's update. -/
def sampleUser2 : User :=
  { user_id := "u1", external_id := "github:1", provider := "github",
    username := "l", display_name := "New", email := none, avatar_url := "a2",
    bio := "rust fan", expertise := ["rust"], vanity_subdomain := some "l",
    oauth_token := "t2", oauth_refresh := some "r2", oauth_expires := 109,
    created_at := 7, last_activity := 9 }

/-- Fixture: store after the first sample run. -/
def sampleDb1 : Database := Database.mk [sampleUser1]
  [{ session_id := "s1", user_id := "u1", created_at := 7, expires_at := 2592007 }]
  [{ state := "st2", code_verifier := "v2", provider := "github",
     created_at := 0, expires_at := 600 }]

/-- Fixture: store after the second sample run. -/
def sampleDb2 : Database := Database.mk [sampleUser2]
  [{ session_id := "s1", user_id := "u1", created_at := 7, expires_at := 2592007 },
   { session_id := "s2", user_id := "u1", created_at := 9, expires_at := 2592009 }]
  []

theorem upsert_preserves_identity_witness :
    sampleUser2.user_id = sampleUser1.user_id ∧
    sampleUser2.external_id = sampleUser1.external_id ∧
    sampleUser2.username = sampleUser1.username ∧
    sampleUser2.vanity_subdomain = sampleUser1.vanity_subdomain ∧
    sampleUser2.email = sampleUser1.email ∧
    sampleUser2.created_at = sampleUser1.created_at ∧
    sampleUser2.display_name = "New" ∧
    sampleUser2.avatar_url = "a2" ∧
    sampleUser2.bio = "rust fan" ∧
    sampleUser2.expertise = extract_expertise "rust fan" "github" sampleProfile2 ∧
    sampleUser2.oauth_token = "t2" ∧
    sampleUser2.oauth_refresh = some "r2" ∧
    sampleUser2.oauth_expires = 9 + (some 100).getD 3600 ∧
    sampleUser2.last_activity = 9 :=
  upsert_preserves_identity "github" "c1" "c2" "st1" "st2"
    { access_token := "t1" }
    { access_token := "t2", refresh_token := some "r2", expires_in := some 100 }
    (.ok sampleProfile1) (.ok sampleProfile2) none none
    "u1" "s1" "u2" "s2" 7 9
    sampleDb0 sampleDb1 sampleDb2 sampleUser1 sampleUser2
    { session_id := "s1", user_id := "u1", created_at := 7, expires_at := 2592007 }
    { session_id := "s2", user_id := "u1", created_at := 9, expires_at := 2592009 }
    sampleProfile1 sampleProfile2
    { id := "1", username := "l", display_name := "l", avatar_url := "a",
      bio := "python fan", email := none }
    { id := "1", username := "l2", display_name := "New", avatar_url := "a2",
      bio := "rust fan", email := none }
    rfl rfl rfl rfl rfl (by decide) rfl rfl

/-- C2: the upsert is a separate read-then-write, not an atomic
create-then-on-conflict-update.  When two first-time callbacks for the same
new external id both read before either writes, the first insert succeeds and
the second insert trips the storage unique constraint, so the losing callback
fails with an integrity error instead of completing with the stored user;
exactly one row exists only because that insert was refused. -/
theorem concurrent_first_login_race :
    normalize_user_data "github" sampleProfile1
      = .ok { id := "1", username := "l", display_name := "l", avatar_url := "a",
              bio := "python fan", email := none }
  ∧ normalize_user_data "github" sampleProfile2
      = .ok { id := "1", username := "l2", display_name := "New", avatar_url := "a2",
              bio := "rust fan", email := none }
  ∧ ((interleavedFirstLogins "github" sampleProfile1 sampleProfile2
        { access_token := "t1" } { access_token := "t2" }
        { id := "1", username := "l", display_name := "l", avatar_url := "a",
          bio := "python fan", email := none }
        { id := "1", username := "l2", display_name := "New", avatar_url := "a2",
          bio := "rust fan", email := none }
        "uA" "uB" 7 (Database.mk [] [] [])).1.1).isOk = true
  ∧ (interleavedFirstLogins "github" sampleProfile1 sampleProfile2
        { access_token := "t1" } { access_token := "t2" }
        { id := "1", username := "l", display_name := "l", avatar_url := "a",
          bio := "python fan", email := none }
        { id := "1", username := "l2", display_name := "New", avatar_url := "a2",
          bio := "rust fan", email := none }
        "uA" "uB" 7 (Database.mk [] [] [])).1.2
      = .error .integrityError
  ∧ ((interleavedFirstLogins "github" sampleProfile1 sampleProfile2
        { access_token := "t1" } { access_token := "t2" }
        { id := "1", username := "l", display_name := "l", avatar_url := "a",
          bio := "python fan", email := none }
        { id := "1", username := "l2", display_name := "New", avatar_url := "a2",
          bio := "rust fan", email := none }
        "uA" "uB" 7 (Database.mk [] [] [])).2).users.length = 1 :=
  ⟨rfl, rfl, rfl, rfl, rfl⟩

theorem b64char_safe (n : Nat) : quotePlusSafe (b64char n) = true := by
  have halpha : ∀ c ∈ b64urlAlphabet, quotePlusSafe c = true := by decide
  unfold b64char
  rcases h : b64urlAlphabet.get? n with _ | c
  · rfl
  · simp only [Option.getD_some]
    exact halpha c (List.get?_mem h)

theorem b64urlNoPadChars_safe :
    ∀ bs : List Nat, ∀ c ∈ b64urlNoPadChars bs, quotePlusSafe c = true
  | [] => by simp [b64urlNoPadChars]
  | [b1] => by
    intro c hc
    simp only [b64urlNoPadChars, List.mem_cons, List.not_mem_nil, or_false] at hc
    rcases hc with rfl | rfl <;> exact b64char_safe _
  | [b1, b2] => by
    intro c hc
    simp only [b64urlNoPadChars, List.mem_cons, List.not_mem_nil, or_false] at hc
    rcases hc with rfl | rfl | rfl <;> exact b64char_safe _
  | b1 :: b2 :: b3 :: rest => by
    intro c hc
    simp only [b64urlNoPadChars, List.mem_cons] at hc
    rcases hc with rfl | rfl | rfl | rfl | h
    · exact b64char_safe _
    · exact b64char_safe _
    · exact b64char_safe _
    · exact b64char_safe _
    · exact b64urlNoPadChars_safe rest c h

theorem flatMap_quotePlusChar_of_safe (l : List Char)
    (h : ∀ c ∈ l, quotePlusSafe c = true) :
    l.flatMap quotePlusChar = l := by
  induction l with
  | nil => rfl
  | cons c cs ih =>
    rw [List.flatMap_cons]
    have hc : quotePlusChar c = [c] := by
      unfold quotePlusChar
      rw [if_pos (h c (List.mem_cons_self c cs))]
    rw [hc, ih (fun d hd => h d (List.mem_cons_of_mem c hd))]
    rfl

theorem quotePlus_b64urlNoPad (bs : List Nat) :
    quotePlus (b64urlNoPad bs) = b64urlNoPad bs := by
  unfold quotePlus b64urlNoPad
  rw [flatMap_quotePlusChar_of_safe _ (b64urlNoPadChars_safe bs)]

/-- C4: for a known, credentialed provider the authorization URL carries
code_challenge = URL-safe-no-padding base64 of the SHA-256 digest of the PKCE
verifier, with code_challenge_method=S256, and that verifier is stored in the
state store under the state token embedded in the same URL. -/
theorem auth_url_pkce_challenge (credentials : String → Option String)
    (sha256 : String → List Nat) (verifierBytes : List Nat) (stateRandom : String)
    (callback_base_url provider redirect_path : String) (now : Nat) (db : Database)
    (config : ProviderConfig) (client_id : String)
    (hprov : PROVIDERS provider = some config)
    (hcred : credentials provider = some client_id)
    (hcid : client_id ≠ "")
    (hfresh : db.oauth_states.any
        (fun o => o.state == generate_state stateRandom redirect_path) = false) :
    ∃ url db',
      get_auth_url credentials sha256 verifierBytes stateRandom callback_base_url
          provider redirect_path now db = .ok (url, db') ∧
      (∃ pre, url = pre ++ "&" ++ "state" ++ "=" ++
          quotePlus (generate_state stateRandom redirect_path) ++ "&" ++
          "code_challenge" ++ "=" ++
          b64urlNoPad (sha256 (generate_code_verifier verifierBytes)) ++ "&" ++
          "code_challenge_method" ++ "=" ++ "S256") ∧
      db'.get_oauth_state (generate_state stateRandom redirect_path) now
        = some (generate_code_verifier verifierBytes, provider) := by
  have hbeq : (client_id == "") = false := beq_eq_false_iff_ne.mpr hcid
  refine ⟨config.auth_url ++ "?" ++ urlencode
      [("client_id", client_id),
       ("redirect_uri", callback_base_url ++ "/auth/callback/" ++ provider),
       ("response_type", "code"),
       ("scope", config.scope),
       ("state", generate_state stateRandom redirect_path),
       ("code_challenge", generate_code_challenge sha256 (generate_code_verifier verifierBytes)),
       ("code_challenge_method", "S256")],
    { db with oauth_states := db.oauth_states ++
        [{ state := generate_state stateRandom redirect_path,
           code_verifier := generate_code_verifier verifierBytes,
           provider := provider, created_at := now, expires_at := now + 600 }] },
    ?_, ?_, ?_⟩
  · unfold get_auth_url
    rw [hprov, hcred]
    simp only [hbeq, Bool.false_eq_true, if_false]
    unfold Database.store_oauth_state
    simp only [hfresh, Bool.false_eq_true, if_false]
  · refine ⟨config.auth_url ++ "?" ++ "client_id" ++ "=" ++ quotePlus client_id ++ "&" ++
      "redirect_uri" ++ "=" ++
      quotePlus (callback_base_url ++ "/auth/callback/" ++ provider) ++ "&" ++
      "response_type" ++ "=" ++ "code" ++ "&" ++ "scope" ++ "=" ++
      quotePlus config.scope, ?_⟩
    have hchal : quotePlus (generate_code_challenge sha256
        (generate_code_verifier verifierBytes))
        = b64urlNoPad (sha256 (generate_code_verifier verifierBytes)) := by
      unfold generate_code_challenge
      exact quotePlus_b64urlNoPad _
    simp only [urlencode, hchal, show quotePlus "code" = "code" from rfl,
      show quotePlus "S256" = "S256" from rfl, String.append_assoc]
  · unfold Database.get_oauth_state
    have hnone : db.oauth_states.find?
        (fun o => o.state == generate_state stateRandom redirect_path) = none := by
      rw [List.find?_eq_none]
      intro o ho hp
      have : db.oauth_states.any
          (fun o => o.state == generate_state stateRandom redirect_path) = true :=
        List.any_eq_true.mpr ⟨o, ho, hp⟩
      rw [hfresh] at this
      exact Bool.false_ne_true this
    rw [List.find?_append, hnone]
    simp only [Option.none_or, List.find?_cons, List.find?_nil, beq_self_eq_true]
    have hexp : OAuthState.is_expired
        { state := generate_state stateRandom redirect_path,
          code_verifier := generate_code_verifier verifierBytes,
          provider := provider, created_at := now, expires_at := now + 600 } now
        = false := by
      unfold OAuthState.is_expired
      simp
    rw [hexp]
    rfl

theorem auth_url_pkce_challenge_witness :
    ∃ url db',
      get_auth_url (fun _ => some "cid") (fun _ => [1, 2, 3]) [7, 8, 9] "r"
          "http://localhost:8000" "github" "/dashboard" 5 (Database.mk [] [] [])
        = .ok (url, db') ∧
      (∃ pre, url = pre ++ "&" ++ "state" ++ "=" ++
          quotePlus (generate_state "r" "/dashboard") ++ "&" ++
          "code_challenge" ++ "=" ++
          b64urlNoPad ((fun _ => [1, 2, 3]) (generate_code_verifier [7, 8, 9])) ++ "&" ++
          "code_challenge_method" ++ "=" ++ "S256") ∧
      db'.get_oauth_state (generate_state "r" "/dashboard") 5
        = some (generate_code_verifier [7, 8, 9], "github") :=
  auth_url_pkce_challenge (fun _ => some "cid") (fun _ => [1, 2, 3]) [7, 8, 9] "r"
    "http://localhost:8000" "github" "/dashboard" 5 (Database.mk [] [] [])
    { auth_url := "https://github.com/login/oauth/authorize"
      token_url := "https://github.com/login/oauth/access_token"
      user_info_url := "https://api.github.com/user"
      repos_url := some "https://api.github.com/user/repos"
      scope := "read:user user:email" }
    "cid" rfl rfl (by decide) rfl
